import Mathlib

/-!
Verification of the structure of `tutorials/tf2/mnist_tutorial.py`.

The script is orchestration glue: it builds a small CNN (`Net`), runs a
training loop with an optional adversarial-augmentation call, then runs an
evaluation loop that applies seven imported attack functions to every test
batch and tallies one accuracy metric per attack, finally printing the eight
accuracies.  The attacks, autodiff and optimizer live in external libraries,
so they are embedded symbolically: a run of the script is a trace of events
(attack calls, model calls, metric updates, optimizer steps, prints), and
data values are expression trees recording exactly how each tensor was
produced.  Display-only calls (`tf.keras.utils.Progbar`) are omitted from
the traces, as are the dataset-loading internals of `ld_mnist`; the training
and test sets are abstracted as indexed batches.
-/

namespace MnistTutorial

/-- Norm argument of an attack: `np.inf` or the integer `2` (L2). -/
inductive Norm where
  | inf
  | l2
  deriving DecidableEq, Repr

/-- The seven attack functions imported at the top of the script. -/
inductive AttackName where
  | fgm
  | pgd
  | bim
  | mea
  | mim
  | cw
  | cwq
  deriving DecidableEq, Repr

/-- Hyperparameters passed to an attack call.  A field is `none` when the
corresponding argument is absent from that call in the script. -/
structure AttackArgs where
  eps : Option ℚ
  eps_iter : Option ℚ
  nb_iter : Option Nat
  norm : Option Norm
  targeted : Option Bool
  max_iterations : Option Nat
  deriving DecidableEq, Repr

/-- The loss object: `tf.losses.SparseCategoricalCrossentropy(from_logits=True)`. -/
inductive LossSpec where
  | sparseCategoricalCrossentropy (from_logits : Bool)
  deriving DecidableEq, Repr

/-- The optimizer: `tf.optimizers.Adam(learning_rate=0.001)`. -/
inductive OptimizerSpec where
  | adam (learning_rate : ℚ)
  deriving DecidableEq, Repr

/-- The accuracy / loss metrics created in `main` (lines 66-74). -/
inductive MetricName where
  | train_loss
  | clean
  | fgsm
  | pgd
  | bim
  | mea
  | mim
  | cw
  | cw_quantum
  deriving DecidableEq, Repr

/-- Symbolic values: each constructor records how a tensor was produced. -/
inductive Val where
  | testBatchX (i : Nat)
  | testBatchY (i : Nat)
  | trainBatchX (epoch i : Nat)
  | trainBatchY (epoch i : Nat)
  | attackOut (a : AttackName) (input : Val) (args : AttackArgs)
  | modelOut (input : Val)
  | lossOut (spec : LossSpec) (y pred : Val)
  | gradOut (loss : Val)
  | metricResult (m : MetricName)
  | times100 (v : Val)
  deriving DecidableEq, Repr

/-- One observable step of the script. -/
inductive Event where
  | attackCall (a : AttackName) (input : Val) (args : AttackArgs)
  | modelCall (input : Val)
  | lossCall (spec : LossSpec) (y pred : Val)
  | gradientCall (loss : Val)
  | applyGradients (opt : OptimizerSpec) (grads : Val)
  | metricUpdate (m : MetricName) (y pred : Val)
  | lossRecord (loss : Val)
  | printV (v : Val)
  deriving DecidableEq, Repr

/-- Command-line flags defined at the bottom of the script. -/
structure Flags where
  nb_epochs : Nat
  eps : ℚ
  adv_train : Bool
  deriving DecidableEq, Repr

/-- Default flag values: `nb_epochs=8`, `eps=0.3`, `adv_train=False`. -/
def defaultFlags : Flags := ⟨8, 3/10, false⟩

/-- `loss_object` in `main` (line 62). -/
def loss_object : LossSpec := .sparseCategoricalCrossentropy true

/-- `optimizer` in `main` (line 63): Adam with learning rate 0.001. -/
def optimizer : OptimizerSpec := .adam (1/1000)

/-- `train_step(x, y)` (lines 76-83): forward pass, loss, gradient of the
loss, one optimizer step, record the loss in the `train_loss` metric. -/
def train_step (x y : Val) : List Event :=
  let predictions := Val.modelOut x
  let loss := Val.lossOut loss_object y predictions
  let gradients := Val.gradOut loss
  [Event.modelCall x,
   Event.lossCall loss_object y predictions,
   Event.gradientCall loss,
   Event.applyGradients optimizer gradients,
   Event.lossRecord loss]

/-- Body of the inner training loop (lines 89-94): when `FLAGS.adv_train`
the clean batch is replaced by
`projected_gradient_descent(model, x, FLAGS.eps, 0.01, 40, np.inf)`
before `train_step` runs. -/
def trainBatch (fl : Flags) (epoch i : Nat) : List Event :=
  let x := Val.trainBatchX epoch i
  let y := Val.trainBatchY epoch i
  if fl.adv_train then
    let args : AttackArgs := ⟨some fl.eps, some (1/100), some 40, some .inf, none, none⟩
    Event.attackCall .pgd x args :: train_step (Val.attackOut .pgd x args) y
  else
    train_step x y

/-- The training loop (lines 86-94): `nb_epochs` epochs over the training
batches. -/
def trainLoop (fl : Flags) (nTrainBatches : Nat) : List Event :=
  ((List.range fl.nb_epochs).map (fun epoch =>
    ((List.range nTrainBatches).map (fun i => trainBatch fl epoch i)).flatten)).flatten

/-- Body of the evaluation loop (lines 98-130), translated line by line:
clean forward pass and clean-accuracy update, then for each of the seven
attacks an attack call on the clean batch `x`, a forward pass on the
attack output, and an update of that attack's dedicated metric. -/
def evalBatch (fl : Flags) (i : Nat) : List Event :=
  let x := Val.testBatchX i
  let y := Val.testBatchY i
  let y_pred := Val.modelOut x
  let x_fgm := Val.attackOut .fgm x ⟨some fl.eps, none, none, some .inf, none, none⟩
  let x_pgd := Val.attackOut .pgd x ⟨some fl.eps, some (1/100), some 40, some .inf, none, none⟩
  let x_bim := Val.attackOut .bim x ⟨some fl.eps, some (1/100), some 40, some .l2, none, none⟩
  let x_mea := Val.attackOut .mea x ⟨some (1/100), some (1/100), some 40, some .inf, none, none⟩
  let x_mim := Val.attackOut .mim x ⟨some (1/100), some (1/100), some 40, some .inf, none, none⟩
  let x_cw := Val.attackOut .cw x ⟨none, none, none, none, some false, some 50⟩
  let x_cw_quantum := Val.attackOut .cwq x ⟨none, none, none, none, some false, some 10⟩
  [Event.modelCall x,
   Event.metricUpdate .clean y y_pred,
   Event.attackCall .fgm x ⟨some fl.eps, none, none, some .inf, none, none⟩,
   Event.modelCall x_fgm,
   Event.metricUpdate .fgsm y (Val.modelOut x_fgm),
   Event.attackCall .pgd x ⟨some fl.eps, some (1/100), some 40, some .inf, none, none⟩,
   Event.modelCall x_pgd,
   Event.metricUpdate .pgd y (Val.modelOut x_pgd),
   Event.attackCall .bim x ⟨some fl.eps, some (1/100), some 40, some .l2, none, none⟩,
   Event.modelCall x_bim,
   Event.metricUpdate .bim y (Val.modelOut x_bim),
   Event.attackCall .mea x ⟨some (1/100), some (1/100), some 40, some .inf, none, none⟩,
   Event.modelCall x_mea,
   Event.metricUpdate .mea y (Val.modelOut x_mea),
   Event.attackCall .mim x ⟨some (1/100), some (1/100), some 40, some .inf, none, none⟩,
   Event.modelCall x_mim,
   Event.metricUpdate .mim y (Val.modelOut x_mim),
   Event.attackCall .cw x ⟨none, none, none, none, some false, some 50⟩,
   Event.modelCall x_cw,
   Event.metricUpdate .cw y (Val.modelOut x_cw),
   Event.attackCall .cwq x ⟨none, none, none, none, some false, some 10⟩,
   Event.modelCall x_cw_quantum,
   Event.metricUpdate .cw_quantum y (Val.modelOut x_cw_quantum)]

/-- The evaluation loop over all test batches. -/
def evalLoop (fl : Flags) (nTestBatches : Nat) : List Event :=
  ((List.range nTestBatches).map (fun i => evalBatch fl i)).flatten

/-- The eight print statements (lines 132-174), each printing a metric's
result times 100, translated print by print. -/
def printResults : List Event :=
  [Event.printV (Val.times100 (Val.metricResult .clean)),
   Event.printV (Val.times100 (Val.metricResult .fgsm)),
   Event.printV (Val.times100 (Val.metricResult .pgd)),
   Event.printV (Val.times100 (Val.metricResult .bim)),
   Event.printV (Val.times100 (Val.metricResult .mea)),
   Event.printV (Val.times100 (Val.metricResult .mim)),
   Event.printV (Val.times100 (Val.metricResult .cw)),
   Event.printV (Val.times100 (Val.metricResult .cw_quantum))]

/-- `main`: training loop, then evaluation loop, then the prints, given the
number of training batches per epoch and of test batches. -/
def main (fl : Flags) (nTrainBatches nTestBatches : Nat) : List Event :=
  trainLoop fl nTrainBatches ++ evalLoop fl nTestBatches ++ printResults

/-! ### The network `Net` (lines 20-38) -/

/-- Activation of a Keras layer; `linear` is Keras's default (no activation),
so the layer outputs raw logits. -/
inductive Activation where
  | relu
  | linear
  deriving DecidableEq, Repr

/-- Padding mode of a Conv2D layer. -/
inductive Padding where
  | same
  | valid
  deriving DecidableEq, Repr

/-- Specification of one Keras layer as constructed in `Net.__init__`. -/
inductive LayerSpec where
  | conv2d (filters kernel_size : Nat) (strides : Nat × Nat) (act : Activation) (pad : Padding)
  | dropout (rate : ℚ)
  | flatten
  | dense (units : Nat) (act : Activation)
  deriving DecidableEq, Repr

/-- `self.conv1 = Conv2D(64, 8, strides=(2, 2), activation="relu", padding="same")` -/
def Net.conv1 : LayerSpec := .conv2d 64 8 (2, 2) .relu .same

/-- `self.conv2 = Conv2D(128, 6, strides=(2, 2), activation="relu", padding="valid")` -/
def Net.conv2 : LayerSpec := .conv2d 128 6 (2, 2) .relu .valid

/-- `self.conv3 = Conv2D(128, 5, strides=(1, 1), activation="relu", padding="valid")` -/
def Net.conv3 : LayerSpec := .conv2d 128 5 (1, 1) .relu .valid

/-- `self.dropout = Dropout(0.25)` -/
def Net.dropout : LayerSpec := .dropout (1/4)

/-- `self.flatten = Flatten()` -/
def Net.flatten : LayerSpec := .flatten

/-- `self.dense1 = Dense(128, activation="relu")` -/
def Net.dense1 : LayerSpec := .dense 128 .relu

/-- `self.dense2 = Dense(10)` (no activation: raw logits). -/
def Net.dense2 : LayerSpec := .dense 10 .linear

/-- Symbolic tensors inside the network: the input, or the output of one
layer applied to a tensor. -/
inductive TVal where
  | input
  | layerOut (l : LayerSpec) (t : TVal)
  deriving DecidableEq, Repr

/-- `Net.call` (lines 31-38), translated statement by statement: each line
rebinds `x` to the next layer's output and the result of `dense2` is
returned. -/
def Net.call (x : TVal) : TVal :=
  let x := TVal.layerOut Net.conv1 x
  let x := TVal.layerOut Net.conv2 x
  let x := TVal.layerOut Net.conv3 x
  let x := TVal.layerOut Net.dropout x
  let x := TVal.layerOut Net.flatten x
  let x := TVal.layerOut Net.dense1 x
  TVal.layerOut Net.dense2 x

/-- The sequence of layers `Net.__init__` constructs, in the order
`Net.call` applies them. -/
def Net.layers : List LayerSpec :=
  [Net.conv1, Net.conv2, Net.conv3, Net.dropout, Net.flatten, Net.dense1, Net.dense2]

/-! ### Derived views of the trace -/

/-- The arguments the evaluation loop passes to each attack (lines 102-126),
collected per attack name. -/
def attackArgsEval (fl : Flags) : AttackName → AttackArgs
  | .fgm => ⟨some fl.eps, none, none, some .inf, none, none⟩
  | .pgd => ⟨some fl.eps, some (1/100), some 40, some .inf, none, none⟩
  | .bim => ⟨some fl.eps, some (1/100), some 40, some .l2, none, none⟩
  | .mea => ⟨some (1/100), some (1/100), some 40, some .inf, none, none⟩
  | .mim => ⟨some (1/100), some (1/100), some 40, some .inf, none, none⟩
  | .cw => ⟨none, none, none, none, some false, some 50⟩
  | .cwq => ⟨none, none, none, none, some false, some 10⟩

/-- The dedicated accuracy metric updated from each attack's output. -/
def attackMetric : AttackName → MetricName
  | .fgm => .fgsm
  | .pgd => .pgd
  | .bim => .bim
  | .mea => .mea
  | .mim => .mim
  | .cw => .cw
  | .cwq => .cw_quantum

/-- The order in which the evaluation loop applies the attacks. -/
def attackOrder : List AttackName := [.fgm, .pgd, .bim, .mea, .mim, .cw, .cwq]

/-- The order in which the evaluators run on a batch and in which the
accuracies are printed. -/
def metricOrder : List MetricName :=
  [.clean, .fgsm, .pgd, .bim, .mea, .mim, .cw, .cw_quantum]

/-- The three-event block the evaluation loop emits for one attack:
attack call on the clean batch, forward pass on the attack output, update of
the attack's dedicated metric. -/
def evalAttackBlock (fl : Flags) (i : Nat) (a : AttackName) : List Event :=
  let x := Val.testBatchX i
  let xadv := Val.attackOut a x (attackArgsEval fl a)
  [Event.attackCall a x (attackArgsEval fl a),
   Event.modelCall xadv,
   Event.metricUpdate (attackMetric a) (Val.testBatchY i) (Val.modelOut xadv)]

/-- The attack name of an event, when it is an attack call. -/
def eventAttackName : Event → Option AttackName
  | .attackCall a _ _ => some a
  | _ => none

/-- The input of an event, when it is an attack call. -/
def eventAttackInput : Event → Option Val
  | .attackCall _ x _ => some x
  | _ => none

/-- The attack name and arguments of an event, when it is an attack call. -/
def eventAttackArgs : Event → Option (AttackName × AttackArgs)
  | .attackCall a _ args => some (a, args)
  | _ => none

/-- The metric of an event, when it is a metric update. -/
def eventMetricName : Event → Option MetricName
  | .metricUpdate m _ _ => some m
  | _ => none

/-- Number of attack calls in a trace. -/
def countAttackCalls (t : List Event) : Nat := (t.filterMap eventAttackName).length

/-- Whether an event applies gradients to the model (one optimizer step). -/
def isApplyGradients : Event → Bool
  | .applyGradients _ _ => true
  | _ => false

/-- Whether an event is part of a training update: loss computation,
gradient computation, optimizer step, or train-loss recording. -/
def isTrainingUpdate : Event → Bool
  | .lossCall _ _ _ => true
  | .gradientCall _ => true
  | .applyGradients _ _ => true
  | .lossRecord _ => true
  | _ => false

/-- Whether an event is a test-set evaluation step: an accuracy-metric
update or a result print. -/
def isTestEval : Event → Bool
  | .metricUpdate _ _ _ => true
  | .printV _ => true
  | _ => false


/-! ### Helper lemmas -/

/-- Transfer a Boolean `all` fact to a pointwise one. -/
theorem all_not_of_all (l : List Event) (p : Event → Bool)
    (h : l.all (fun e => !p e) = true) : ∀ e ∈ l, p e = false := by
  intro e he
  simpa using List.all_eq_true.mp h e he

/-- No event of a training batch is a test-set evaluation step. -/
theorem trainBatch_all_not_eval (fl : Flags) (ep i : Nat) :
    (trainBatch fl ep i).all (fun e => !isTestEval e) = true := by
  cases h : fl.adv_train <;> simp [trainBatch, train_step, isTestEval, h]

/-- No event of an evaluation batch is a training update. -/
theorem evalBatch_all_not_train (fl : Flags) (i : Nat) :
    (evalBatch fl i).all (fun e => !isTrainingUpdate e) = true := rfl

/-- No print event is a training update. -/
theorem printResults_all_not_train :
    printResults.all (fun e => !isTrainingUpdate e) = true := rfl

/-- No event of the whole training loop is a test-set evaluation step. -/
theorem trainLoop_all_not_eval (fl : Flags) (nTr : Nat) :
    (trainLoop fl nTr).all (fun e => !isTestEval e) = true := by
  rw [List.all_eq_true]
  intro e he
  rw [trainLoop, List.mem_flatten] at he
  obtain ⟨l, hlmem, hel⟩ := he
  rw [List.mem_map] at hlmem
  obtain ⟨ep, _, rfl⟩ := hlmem
  rw [List.mem_flatten] at hel
  obtain ⟨l2, hl2mem, hel2⟩ := hel
  rw [List.mem_map] at hl2mem
  obtain ⟨i, _, rfl⟩ := hl2mem
  exact List.all_eq_true.mp (trainBatch_all_not_eval fl ep i) e hel2

/-- No event of the whole evaluation loop is a training update. -/
theorem evalLoop_all_not_train (fl : Flags) (nTe : Nat) :
    (evalLoop fl nTe).all (fun e => !isTrainingUpdate e) = true := by
  rw [List.all_eq_true]
  intro e he
  rw [evalLoop, List.mem_flatten] at he
  obtain ⟨l, hlmem, hel⟩ := he
  rw [List.mem_map] at hlmem
  obtain ⟨i, _, rfl⟩ := hlmem
  exact List.all_eq_true.mp (evalBatch_all_not_train fl i) e hel

/-! ### The claims -/

/-- Claim C1: for every test batch, the evaluation loop applies exactly the
seven attack functions to that batch, runs the model on each attack's
output, updates one dedicated accuracy metric per attack (the metrics are
pairwise distinct and distinct from the clean metric), and updates the
clean-accuracy metric from the model's output on the unperturbed batch. -/
theorem C1_eval_batch_applies_seven_attacks (fl : Flags) (i : Nat) :
    evalBatch fl i =
      Event.modelCall (Val.testBatchX i) ::
      Event.metricUpdate .clean (Val.testBatchY i) (Val.modelOut (Val.testBatchX i)) ::
      (attackOrder.map (evalAttackBlock fl i)).flatten ∧
    attackOrder =
      [AttackName.fgm, .pgd, .bim, .mea, .mim, .cw, .cwq] ∧
    attackOrder.length = 7 ∧
    (MetricName.clean :: attackOrder.map attackMetric).Nodup :=
  ⟨rfl, rfl, rfl, by decide⟩

/-- Claim C2, counterexample: the arguments passed to
`fast_gradient_method` are not all compile-time literals; they change when
only the `eps` command-line flag changes (0.3 versus 0.1). -/
theorem C2_counterexample :
    attackArgsEval ⟨8, 3/10, false⟩ AttackName.fgm ≠
      attackArgsEval ⟨8, 1/10, false⟩ AttackName.fgm := by
  simp [attackArgsEval]
  norm_num

/-- Claim C2, amended: every attack argument is a compile-time literal
except the total-epsilon argument of `fast_gradient_method`,
`projected_gradient_descent` (in evaluation and in adversarial training)
and `basic_iterative_method`, which is the runtime value of the `eps`
command-line flag. -/
theorem C2_amended_flag_dependence (f1 f2 : Flags) (a : AttackName) :
    { attackArgsEval f1 a with eps := none } = { attackArgsEval f2 a with eps := none } ∧
    (attackArgsEval f1 a).eps =
      (if a = .fgm ∨ a = .pgd ∨ a = .bim then some f1.eps
       else (attackArgsEval f2 a).eps) ∧
    (trainBatch ⟨f1.nb_epochs, f1.eps, true⟩ 0 0).filterMap eventAttackArgs =
      [(AttackName.pgd,
        ⟨some f1.eps, some (1/100), some 40, some Norm.inf, none, none⟩)] := by
  refine ⟨?_, ?_, rfl⟩ <;> cases a <;> simp [attackArgsEval]

/-- Claim C3: a training batch triggers exactly one augmentation call when
`adv_train` is set and none otherwise; with the flag set, the clean batch is
replaced by `projected_gradient_descent(model, x, FLAGS.eps, 0.01, 40,
np.inf)` before `train_step`; without it, `train_step` receives the batch
unchanged, and `train_step` itself performs no attack call. -/
theorem C3_optional_single_augmentation (fl : Flags) (ep i : Nat) :
    countAttackCalls (trainBatch fl ep i) = (if fl.adv_train then 1 else 0) ∧
    trainBatch fl ep i =
      (if fl.adv_train then
        Event.attackCall .pgd (Val.trainBatchX ep i)
            ⟨some fl.eps, some (1/100), some 40, some Norm.inf, none, none⟩ ::
          train_step
            (Val.attackOut .pgd (Val.trainBatchX ep i)
              ⟨some fl.eps, some (1/100), some 40, some Norm.inf, none, none⟩)
            (Val.trainBatchY ep i)
       else train_step (Val.trainBatchX ep i) (Val.trainBatchY ep i)) ∧
    countAttackCalls (train_step (Val.trainBatchX ep i) (Val.trainBatchY ep i)) = 0 := by
  refine ⟨?_, ?_, rfl⟩ <;>
    cases h : fl.adv_train <;>
      simp [trainBatch, train_step, countAttackCalls, eventAttackName, h]

/-- Claim C4: `Net` is a chain of exactly seven layers applied in a fixed
sequence (three Conv2D layers, Dropout, Flatten, a 128-unit ReLU Dense
layer, and a final 10-unit Dense layer with no activation), and `Net.call`
is precisely the left fold of layer application over that sequence, so
there is no recurrence or skip connection and the logits of the last Dense
layer are returned. -/
theorem C4_net_seven_layer_chain (x : TVal) :
    Net.call x = Net.layers.foldl (fun t l => TVal.layerOut l t) x ∧
    Net.layers =
      [LayerSpec.conv2d 64 8 (2, 2) Activation.relu Padding.same,
       LayerSpec.conv2d 128 6 (2, 2) Activation.relu Padding.valid,
       LayerSpec.conv2d 128 5 (1, 1) Activation.relu Padding.valid,
       LayerSpec.dropout (1/4),
       LayerSpec.flatten,
       LayerSpec.dense 128 Activation.relu,
       LayerSpec.dense 10 Activation.linear] ∧
    Net.layers.length = 7 ∧
    Net.layers.getLast? = some (LayerSpec.dense 10 Activation.linear) :=
  ⟨rfl, rfl, rfl, rfl⟩

/-- Claim C5: on every test batch the evaluators update their metrics in
the fixed order clean, FGM, PGD, BIM, MEA, MIM, CW, CW-quantum; after the
evaluation loop the eight accuracies are printed in that same order, each
as the metric's result times 100. -/
theorem C5_fixed_order_and_prints (fl : Flags) (i nTr nTe : Nat) :
    (evalBatch fl i).filterMap eventMetricName = metricOrder ∧
    metricOrder =
      [MetricName.clean, .fgsm, .pgd, .bim, .mea, .mim, .cw, .cw_quantum] ∧
    printResults =
      metricOrder.map (fun m => Event.printV (Val.times100 (Val.metricResult m))) ∧
    main fl nTr nTe = trainLoop fl nTr ++ evalLoop fl nTe ++ printResults :=
  ⟨rfl, rfl, rfl, rfl⟩

/-- Claim C6: training strictly precedes evaluation: the trace of `main` is
the training loop over all `nb_epochs` epochs followed by the evaluation
loop and the prints, no event of the training loop is a test-set
evaluation step, and no event after the training loop is a training
update. -/
theorem C6_training_precedes_evaluation (fl : Flags) (nTr nTe : Nat) :
    main fl nTr nTe = trainLoop fl nTr ++ (evalLoop fl nTe ++ printResults) ∧
    (trainLoop fl nTr).all (fun e => !isTestEval e) = true ∧
    (evalLoop fl nTe ++ printResults).all (fun e => !isTrainingUpdate e) = true := by
  refine ⟨by simp [main], trainLoop_all_not_eval fl nTr, ?_⟩
  rw [List.all_append]
  exact by rw [evalLoop_all_not_train fl nTe, printResults_all_not_train]; rfl

/-- Claim C7: `train_step` on a batch is exactly one standard
gradient-descent update: forward pass, sparse-categorical-crossentropy
loss (from logits) of the prediction against the labels, gradient of that
loss, a single Adam (learning rate 0.001) optimizer step on that gradient,
and a recording of that same loss in the train-loss metric. -/
theorem C7_train_step_standard_update (x y : Val) :
    train_step x y =
      [Event.modelCall x,
       Event.lossCall (LossSpec.sparseCategoricalCrossentropy true) y (Val.modelOut x),
       Event.gradientCall
         (Val.lossOut (LossSpec.sparseCategoricalCrossentropy true) y (Val.modelOut x)),
       Event.applyGradients (OptimizerSpec.adam (1/1000))
         (Val.gradOut
           (Val.lossOut (LossSpec.sparseCategoricalCrossentropy true) y (Val.modelOut x))),
       Event.lossRecord
         (Val.lossOut (LossSpec.sparseCategoricalCrossentropy true) y (Val.modelOut x))] ∧
    (train_step x y).countP isApplyGradients = 1 :=
  ⟨rfl, rfl⟩

/-- Claim C8: the `eps` flag does not influence the `madry_et_al` and
`momentum_iterative_method` evaluations: their arguments are the same for
any two flag assignments and equal the hard-coded values (eps=0.01,
eps_iter=0.01, nb_iter=40, norm=inf), while the flag is exactly the
epsilon passed to `fast_gradient_method`, `projected_gradient_descent`
and `basic_iterative_method`. -/
theorem C8_eps_flag_noninterference (f1 f2 : Flags) :
    attackArgsEval f1 .mea = attackArgsEval f2 .mea ∧
    attackArgsEval f1 .mim = attackArgsEval f2 .mim ∧
    attackArgsEval f1 .mea =
      ⟨some (1/100), some (1/100), some 40, some Norm.inf, none, none⟩ ∧
    attackArgsEval f1 .mim =
      ⟨some (1/100), some (1/100), some 40, some Norm.inf, none, none⟩ ∧
    (attackArgsEval f1 .fgm).eps = some f1.eps ∧
    (attackArgsEval f1 .pgd).eps = some f1.eps ∧
    (attackArgsEval f1 .bim).eps = some f1.eps :=
  ⟨rfl, rfl, rfl, rfl, rfl, rfl, rfl⟩

/-- Claim C9: among the norm-parameterized attack invocations of the
evaluation loop, `basic_iterative_method` is the only one called with the
L2 norm; `fast_gradient_method`, `projected_gradient_descent`,
`madry_et_al` and `momentum_iterative_method` all receive the infinity
norm, and the two Carlini-Wagner calls take no norm argument. -/
theorem C9_bim_only_l2_norm (fl : Flags) :
    (attackArgsEval fl .bim).norm = some Norm.l2 ∧
    (attackArgsEval fl .fgm).norm = some Norm.inf ∧
    (attackArgsEval fl .pgd).norm = some Norm.inf ∧
    (attackArgsEval fl .mea).norm = some Norm.inf ∧
    (attackArgsEval fl .mim).norm = some Norm.inf ∧
    (attackArgsEval fl .cw).norm = none ∧
    (attackArgsEval fl .cwq).norm = none :=
  ⟨rfl, rfl, rfl, rfl, rfl, rfl, rfl⟩

/-- Claim C10: within one test-batch iteration the attacks are not
chained: all seven attack calls receive the original clean batch as input,
the seven attack outputs are bound to distinct names (the attack names in
the trace are pairwise distinct), and the clean-accuracy metric is updated
from the model's prediction on the clean batch in the first two events,
before any attack runs. -/
theorem C10_no_attack_chaining (fl : Flags) (i : Nat) :
    (evalBatch fl i).filterMap eventAttackInput =
      List.replicate 7 (Val.testBatchX i) ∧
    (evalBatch fl i).filterMap eventAttackName = attackOrder ∧
    attackOrder.Nodup ∧
    (evalBatch fl i).take 2 =
      [Event.modelCall (Val.testBatchX i),
       Event.metricUpdate .clean (Val.testBatchY i)
         (Val.modelOut (Val.testBatchX i))] :=
  ⟨rfl, rfl, by decide, rfl⟩

end MnistTutorial
